import Mathlib

/-!
Verification of the trading-signal scoring pipeline of the `trader` repository.

The development shallowly embeds the core pipeline:
  technical_analysis.py  (indicator engine, signals, volatility, trend)
  psychology.py          (MarketingTrapDetector)
  strategy.py            (StrategyScorer)
  ai_engine.py           (AIDecisionEngine rule-based path)
  live_data.py           (LiveSignalGenerator decision policy)
  marketsense_ai/config.py (constants)

Numeric values are modelled over exact rationals.  Wall-clock readings
(`datetime.now()`) are modelled as an explicit `now : Nat` parameter threaded
to every function that embeds a timestamp in its output.  Python `round(x, n)`
(round-half-to-even on the n-th decimal) is modelled by `pyRound`.
-/

namespace Trader

/-- Python `round(x, nd)`: round half to even at the nd-th decimal digit. -/
def roundHalfEven (y : ℚ) : ℤ :=
  if y - (⌊y⌋ : ℚ) < 1/2 then ⌊y⌋
  else if y - (⌊y⌋ : ℚ) > 1/2 then ⌊y⌋ + 1
  else if ⌊y⌋ % 2 = 0 then ⌊y⌋ else ⌊y⌋ + 1

/-- Python `round(x, nd)` on rationals. -/
def pyRound (nd : ℕ) (x : ℚ) : ℚ :=
  (roundHalfEven (x * 10 ^ nd) : ℚ) / 10 ^ nd

/-- `roundHalfEven` stays between any integer bounds of its argument. -/
theorem roundHalfEven_bounds {m M : ℤ} {y : ℚ} (hm : (m : ℚ) ≤ y) (hM : y ≤ (M : ℚ)) :
    m ≤ roundHalfEven y ∧ roundHalfEven y ≤ M := by
  have hfm : m ≤ ⌊y⌋ := Int.le_floor.mpr hm
  have hfM : ⌊y⌋ ≤ M := by
    have := Int.floor_le_floor hM
    simpa using this
  have hfl : (⌊y⌋ : ℚ) ≤ y := Int.floor_le y
  have hup : ¬ (y - (⌊y⌋ : ℚ) < 1/2) → ⌊y⌋ + 1 ≤ M := by
    intro hge
    have hstrict : (⌊y⌋ : ℚ) < y := by linarith
    rcases lt_or_eq_of_le hfM with h | h
    · omega
    · exfalso
      rw [h] at hstrict
      linarith
  unfold roundHalfEven
  split_ifs with h1 h2 h3
  · exact ⟨hfm, hfM⟩
  · exact ⟨by omega, hup h1⟩
  · exact ⟨hfm, hfM⟩
  · exact ⟨by omega, hup h1⟩

/-- `pyRound` stays between any integer bounds of its argument. -/
theorem pyRound_bounds {m M : ℤ} {x : ℚ} (nd : ℕ) (hm : (m : ℚ) ≤ x) (hM : x ≤ (M : ℚ)) :
    (m : ℚ) ≤ pyRound nd x ∧ pyRound nd x ≤ (M : ℚ) := by
  have hpow : (0 : ℚ) < 10 ^ nd := by positivity
  have hm10 : ((m * 10 ^ nd : ℤ) : ℚ) ≤ x * 10 ^ nd := by
    push_cast
    exact mul_le_mul_of_nonneg_right hm (le_of_lt hpow)
  have hM10 : x * 10 ^ nd ≤ ((M * 10 ^ nd : ℤ) : ℚ) := by
    push_cast
    exact mul_le_mul_of_nonneg_right hM (le_of_lt hpow)
  obtain ⟨h1, h2⟩ := roundHalfEven_bounds hm10 hM10
  unfold pyRound
  constructor
  · rw [le_div_iff₀ hpow]
    calc (m : ℚ) * 10 ^ nd = ((m * 10 ^ nd : ℤ) : ℚ) := by push_cast; ring
    _ ≤ (roundHalfEven (x * 10 ^ nd) : ℚ) := by exact_mod_cast h1
  · rw [div_le_iff₀ hpow]
    calc (roundHalfEven (x * 10 ^ nd) : ℚ) ≤ ((M * 10 ^ nd : ℤ) : ℚ) := by exact_mod_cast h2
    _ = (M : ℚ) * 10 ^ nd := by push_cast; ring

/-! ## Categorical signal values (string constants of the source) -/

/-- Per-indicator categorical signal (strings in the source). -/
inductive IndSignal
  | OVERBOUGHT | OVERSOLD | BULLISH | BEARISH | NEUTRAL
  deriving DecidableEq, Repr

/-- EMA crossover state. -/
inductive Crossover
  | BULLISH_CROSS | BEARISH_CROSS | NONE
  deriving DecidableEq, Repr

/-- Candle direction (`candle_type` column; `NEUTRAL` is the `.get` default). -/
inductive CandleType
  | BULLISH | BEARISH | DOJI | NEUTRAL
  deriving DecidableEq, Repr

/-- Candle pattern from `_identify_pattern`. -/
inductive CandlePattern
  | DOJI | HAMMER | INVERTED_HAMMER | MARUBOZU_BULLISH | MARUBOZU_BEARISH
  | SPINNING_TOP | STANDARD | NONE
  deriving DecidableEq, Repr

/-- Overall bias direction. -/
inductive BiasDirection
  | BULLISH | BEARISH | NEUTRAL
  deriving DecidableEq, Repr

/-- Trend direction from `get_trend_strength`. -/
inductive TrendDirection
  | UPTREND | DOWNTREND | SIDEWAYS | UNKNOWN
  deriving DecidableEq, Repr

/-- Trading session labels (`_get_session` / `get_market_status`). -/
inductive Session
  | ASIAN | LONDON | NEW_YORK | OVERLAP | OFF_HOURS | CLOSED
  deriving DecidableEq, Repr

/-- Probability-engine recommendation. -/
inductive Recommendation
  | ENTER | WAIT | AVOID
  deriving DecidableEq, Repr

/-- Risk tier. -/
inductive RiskLevel
  | LOW | MEDIUM | HIGH
  deriving DecidableEq, Repr

/-- Trap detector overall assessment. -/
inductive Assessment
  | LOW_RISK | MODERATE_RISK | HIGH_RISK_TRAP
  deriving DecidableEq, Repr

/-- Trap / risk-factor type labels. -/
inductive TrapType
  | PERFECT_SETUP_TRAP | LATE_ENTRY_TRAP | VOLATILITY_SPIKE | INDICATOR_DIVERGENCE
  deriving DecidableEq, Repr

/-- Final signal action (`'DO NOT TRADE'` in the source is `DO_NOT_TRADE` here). -/
inductive Action
  | BUY | SELL | WAIT | DO_NOT_TRADE | NO_DATA
  deriving DecidableEq, Repr

/-- Trade direction. -/
inductive Direction
  | CALL | PUT
  deriving DecidableEq, Repr

/-- Confidence tier of the final signal. -/
inductive Confidence
  | HIGH | MEDIUM | LOW
  deriving DecidableEq, Repr

/-- Grade bands of `SCORE_THRESHOLDS`, plus the `'Unknown'` fallback of
`_get_grade`. -/
inductive Grade
  | NO_TRADE | RISKY | ACCEPTABLE | HIGH_QUALITY | UNKNOWN
  deriving DecidableEq, Repr

/-! ## The signals dictionary (`get_current_signals` output) -/

/-- `signals['rsi']`. -/
structure RsiInfo where
  value : ℚ
  signal : IndSignal
  strength : ℚ
  deriving DecidableEq, Repr

/-- `signals['ema']`. -/
structure EmaInfo where
  fast : ℚ
  slow : ℚ
  signal : IndSignal
  crossover : Crossover
  strength : ℚ
  deriving DecidableEq, Repr

/-- `signals['macd']`. -/
structure MacdInfo where
  value : ℚ
  signal_line : ℚ
  histogram : ℚ
  trend : IndSignal
  strength : ℚ
  deriving DecidableEq, Repr

/-- `signals['bollinger']`. -/
structure BollingerInfo where
  upper : ℚ
  middle : ℚ
  lower : ℚ
  width : ℚ
  percent : ℚ
  signal : IndSignal
  deriving DecidableEq, Repr

/-- `signals['candle']`. -/
structure CandleInfo where
  type : CandleType
  pattern : CandlePattern
  deriving DecidableEq, Repr

/-- `signals['overall_bias']` (`_calculate_overall_bias`). -/
structure OverallBias where
  direction : BiasDirection
  confidence : ℚ
  bullish_signals : ℕ
  bearish_signals : ℕ
  total_signals : ℕ
  deriving DecidableEq, Repr

/-- The full signals dictionary produced by `get_current_signals`. -/
structure Signals where
  timestamp : ℕ
  price : ℚ
  rsi : RsiInfo
  ema : EmaInfo
  macd : MacdInfo
  bollinger : BollingerInfo
  candle : CandleInfo
  overall_bias : OverallBias
  deriving DecidableEq, Repr

/-! ## Configuration constants (marketsense_ai/config.py) -/

/-- `TRAP_DETECTION_CONFIG['perfect_setup_threshold']`. -/
def perfect_setup_threshold : ℚ := 9/10

/-- `TRAP_DETECTION_CONFIG['volatility_spike_threshold']`. -/
def volatility_spike_threshold : ℚ := 2

/-- `TRAP_DETECTION_CONFIG['late_entry_threshold']`. -/
def late_entry_threshold : ℚ := 7/10

/-- `AI_CONFIG['confidence_threshold']`. -/
def confidence_threshold : ℚ := 11/20

/-- `SCORE_THRESHOLDS` of config.py: grade, band minimum, band maximum
(dict insertion order preserved). -/
def SCORE_THRESHOLDS : List (Grade × ℚ × ℚ) :=
  [(Grade.NO_TRADE, 0, 40),
   (Grade.RISKY, 41, 60),
   (Grade.ACCEPTABLE, 61, 75),
   (Grade.HIGH_QUALITY, 76, 100)]

/-! ## MarketingTrapDetector (psychology.py) -/

/-- `MarketingTrapDetector._check_perfect_setup`: alignment of the bias counts
against `perfect_setup_threshold`.  The source divides
`max(bullish, bearish)` by `total` when `total > 0`, else uses 0. -/
def check_perfect_setup (s : Signals) : Bool :=
  let total := s.overall_bias.total_signals
  let maxAligned := max s.overall_bias.bullish_signals s.overall_bias.bearish_signals
  let alignFrac : ℚ := if total > 0 then (maxAligned : ℚ) / (total : ℚ) else 0
  decide (alignFrac ≥ perfect_setup_threshold)

/-- `MarketingTrapDetector._check_late_entry`: Bollinger percent above the
late-entry threshold or below its mirror. -/
def check_late_entry (s : Signals) : Bool :=
  let p := s.bollinger.percent
  decide (p > late_entry_threshold) || decide (p < 1 - late_entry_threshold)

/-- `MarketingTrapDetector._check_volatility_spike`.  `hist` is
`historical_df['bb_width'].mean()` when a historical frame with a `bb_width`
column was supplied, `none` otherwise (then the absolute 0.05 threshold is
used). -/
def check_volatility_spike (s : Signals) (hist : Option ℚ) : Bool :=
  let w := s.bollinger.width
  match hist with
  | some avgWidth => decide (w > avgWidth * volatility_spike_threshold)
  | none => decide (w > 1/20)

/-- `MarketingTrapDetector._check_indicator_divergence`: counts of
bullish-like vs bearish-like values among rsi signal, macd trend, ema signal
and candle type; divergent when both counts are at least 2. -/
def check_indicator_divergence (s : Signals) : Bool :=
  let inds := [s.rsi.signal, s.macd.trend, s.ema.signal]
  let bullish := (inds.countP fun x => x = IndSignal.BULLISH ∨ x = IndSignal.OVERSOLD)
    + (if s.candle.type = CandleType.BULLISH then 1 else 0)
  let bearish := (inds.countP fun x => x = IndSignal.BEARISH ∨ x = IndSignal.OVERBOUGHT)
    + (if s.candle.type = CandleType.BEARISH then 1 else 0)
  decide (bullish ≥ 2) && decide (bearish ≥ 2)

/-- Trap assessment returned by `MarketingTrapDetector.analyze_setup`.
`traps_detected` holds the types of the fired trap checks in source order;
the divergence check goes to `risk_factors` instead.  Message strings and
per-check numeric echoes are presentational and omitted. -/
structure TrapAssessment where
  traps_detected : List TrapType
  risk_factors : List TrapType
  overall_risk_score : ℕ
  assessment : Assessment
  analysis_time : ℕ
  deriving DecidableEq, Repr

/-- `MarketingTrapDetector.analyze_setup`: runs the four checks, accumulates
30/25/25/15 risk points, and grades the total. -/
def analyze_setup (s : Signals) (hist : Option ℚ) (now : ℕ) : TrapAssessment :=
  let perfect := check_perfect_setup s
  let late := check_late_entry s
  let spike := check_volatility_spike s hist
  let divergent := check_indicator_divergence s
  let overall_risk : ℕ :=
    (if perfect then 30 else 0) + (if late then 25 else 0)
    + (if spike then 25 else 0) + (if divergent then 15 else 0)
  { traps_detected :=
      (if perfect then [TrapType.PERFECT_SETUP_TRAP] else [])
      ++ (if late then [TrapType.LATE_ENTRY_TRAP] else [])
      ++ (if spike then [TrapType.VOLATILITY_SPIKE] else []),
    risk_factors := if divergent then [TrapType.INDICATOR_DIVERGENCE] else [],
    overall_risk_score := overall_risk,
    assessment :=
      if overall_risk ≥ 50 then Assessment.HIGH_RISK_TRAP
      else if overall_risk ≥ 25 then Assessment.MODERATE_RISK
      else Assessment.LOW_RISK,
    analysis_time := now }

/-! ## StrategyScorer (strategy.py) -/

/-- Output shape of `calculate_volatility` (technical_analysis.py).
`avg_volatility` is absent (`none`) in the short-data return path. -/
structure VolMetrics where
  atr : ℚ
  volatility_pct : ℚ
  is_high_volatility : Bool
  avg_volatility : Option ℚ
  deriving DecidableEq, Repr

/-- Output shape of `get_trend_strength` (technical_analysis.py).
`slope` and `is_strong_trend` are absent (`none`) in the short-data return
path; the scorer reads `is_strong_trend` with default `False`. -/
structure TrendMetrics where
  trend : TrendDirection
  strength : ℚ
  slope : Option ℚ
  is_strong_trend : Option Bool
  deriving DecidableEq, Repr

/-- One row of `db.get_session_performance()` for the session under
evaluation (trade and win counts); `none` when the table has no row for it. -/
structure SessionPerf where
  trades : ℕ
  wins : ℕ
  deriving DecidableEq, Repr

/-- `StrategyScorer._calculate_trend_score` (0-1 raw factor). -/
def calculate_trend_score (s : Signals) (trend : Option TrendMetrics) : ℚ :=
  let base : ℚ := 1/2
  let s1 := base + (if s.ema.signal = IndSignal.BULLISH ∨ s.ema.signal = IndSignal.BEARISH
    then 1/5 else 0)
  let s2 := s1 + (if s.ema.crossover = Crossover.BULLISH_CROSS
      ∨ s.ema.crossover = Crossover.BEARISH_CROSS then 3/20 else 0)
  let s3 :=
    match trend with
    | none => s2
    | some t =>
      let a := s2 + (if t.is_strong_trend.getD false then 3/20 else 0)
      a + (if (t.trend = TrendDirection.UPTREND
              ∧ s.overall_bias.direction = BiasDirection.BULLISH)
            ∨ (t.trend = TrendDirection.DOWNTREND
              ∧ s.overall_bias.direction = BiasDirection.BEARISH) then 1/10 else 0)
  min 1 s3

/-- `StrategyScorer._calculate_momentum_score` (0-1 raw factor). -/
def calculate_momentum_score (s : Signals) : ℚ :=
  let s1 : ℚ := 1/2 +
    (if 40 ≤ s.rsi.value ∧ s.rsi.value ≤ 60 then 3/20
     else if s.rsi.signal = IndSignal.OVERSOLD ∨ s.rsi.signal = IndSignal.OVERBOUGHT
     then 1/10 else 0)
  let s2 := s1 + (if s.macd.strength > 1/2 then 3/20 else 0)
  let s3 := s2 + (if s.macd.trend = IndSignal.BULLISH ∨ s.macd.trend = IndSignal.BEARISH
    then 1/10 else 0)
  let s4 := s3 + s.overall_bias.confidence * (1/10)
  min 1 s4

/-- `StrategyScorer._calculate_volatility_score` (0-1 raw factor). -/
def calculate_volatility_score (s : Signals) (vol : Option VolMetrics) : ℚ :=
  let w := s.bollinger.width
  let p := s.bollinger.percent
  let s1 : ℚ := 1/2 +
    (if 1/100 ≤ w ∧ w ≤ 3/100 then 1/4
     else if w < 1/100 then 1/10 else -(1/10))
  let s2 := s1 +
    (if 3/10 ≤ p ∧ p ≤ 7/10 then 3/20
     else if p < 1/5 ∨ p > 4/5 then -(1/10) else 0)
  let s3 :=
    match vol with
    | none => s2
    | some v =>
      let a := s2 + (if v.is_high_volatility then -(3/20) else 0)
      a + (if 1/2 ≤ v.volatility_pct ∧ v.volatility_pct ≤ 2 then 1/10 else 0)
  max 0 (min 1 s3)

/-- Pattern bonus table of `_calculate_candle_score`. -/
def pattern_scores : CandlePattern → ℚ
  | CandlePattern.HAMMER => 1/4
  | CandlePattern.INVERTED_HAMMER => 1/5
  | CandlePattern.MARUBOZU_BULLISH => 3/10
  | CandlePattern.MARUBOZU_BEARISH => 3/10
  | CandlePattern.DOJI => 1/10
  | CandlePattern.SPINNING_TOP => 1/20
  | CandlePattern.STANDARD => 3/20
  | CandlePattern.NONE => 0

/-- `StrategyScorer._calculate_candle_score` (0-1 raw factor). -/
def calculate_candle_score (s : Signals) : ℚ :=
  let s1 : ℚ := 1/2 + pattern_scores s.candle.pattern
  let s2 := s1 +
    (if (s.candle.type = CandleType.BULLISH
          ∧ s.overall_bias.direction = BiasDirection.BULLISH)
      ∨ (s.candle.type = CandleType.BEARISH
          ∧ s.overall_bias.direction = BiasDirection.BEARISH) then 3/20 else 0)
  min 1 s2

/-- `StrategyScorer._get_current_session`: first matching entry of
`TRADING_SESSIONS` in dict order (ASIAN 0-8, LONDON 8-16, NEW_YORK 13-22,
OVERLAP 13-16), else OFF_HOURS. -/
def get_current_session (hour : ℕ) : Session :=
  if hour < 8 then Session.ASIAN
  else if 8 ≤ hour ∧ hour < 16 then Session.LONDON
  else if 13 ≤ hour ∧ hour < 22 then Session.NEW_YORK
  else if 13 ≤ hour ∧ hour < 16 then Session.OVERLAP
  else Session.OFF_HOURS

/-- Session quality lookup of `_calculate_session_score`
(`session_scores.get(session, 0.5)`; CLOSED is not in the dict). -/
def session_scores : Session → ℚ
  | Session.OVERLAP => 1
  | Session.LONDON => 17/20
  | Session.NEW_YORK => 4/5
  | Session.ASIAN => 3/5
  | Session.OFF_HOURS => 3/10
  | Session.CLOSED => 1/2

/-- `StrategyScorer._calculate_session_score` (0-1 raw factor).  `hour` is the
wall-clock hour used only when no session is supplied; `perf` is the
historical performance row for the resolved session, if any. -/
def calculate_session_score (session : Option Session) (hour : ℕ)
    (perf : Option SessionPerf) : ℚ :=
  let resolved := session.getD (get_current_session hour)
  let base := session_scores resolved
  match perf with
  | none => base
  | some p =>
    if p.trades ≥ 10 then base * (7/10) + ((p.wins : ℚ) / (p.trades : ℚ)) * (3/10)
    else base

/-- Per-trap penalty additions of `_calculate_psychology_penalty`. -/
def trap_penalty : TrapType → ℚ
  | TrapType.PERFECT_SETUP_TRAP => 1/5
  | TrapType.LATE_ENTRY_TRAP => 3/20
  | TrapType.VOLATILITY_SPIKE => 3/20
  | TrapType.INDICATOR_DIVERGENCE => 0

/-- `StrategyScorer._calculate_psychology_penalty` (0-1 raw factor): runs the
trap detector on the signals alone (no historical frame) and sums the
assessment penalty with per-trap additions, capped at 1. -/
def calculate_psychology_penalty (s : Signals) (now : ℕ) : ℚ :=
  let trap := analyze_setup s none now
  let p1 : ℚ :=
    if trap.assessment = Assessment.HIGH_RISK_TRAP then 1/2
    else if trap.assessment = Assessment.MODERATE_RISK then 1/4 else 0
  let p2 := p1 + (trap.traps_detected.map trap_penalty).sum
  min 1 p2

/-- One factor entry of the score breakdown (`raw_score` rounded to 3 digits,
`contribution` to 2, as in the source). -/
structure FactorEntry where
  raw_score : ℚ
  weight : ℚ
  contribution : ℚ
  deriving DecidableEq, Repr

/-- The six-factor breakdown of `calculate_score`. -/
structure ScoreBreakdown where
  trend_alignment : FactorEntry
  momentum : FactorEntry
  volatility : FactorEntry
  candle_pattern : FactorEntry
  session_quality : FactorEntry
  psychology_risk : FactorEntry
  deriving DecidableEq, Repr

/-- Result of `StrategyScorer.calculate_score` (the `recommendation` string is
determined by the grade and omitted). -/
structure ScoreResult where
  final_score : ℚ
  grade : Grade
  breakdown : ScoreBreakdown
  timestamp : ℕ
  deriving DecidableEq, Repr

/-- `StrategyScorer._get_grade`: first band of `SCORE_THRESHOLDS` whose
inclusive range contains the score, else the `'Unknown'` fallback. -/
def get_grade (score : ℚ) : Grade :=
  match SCORE_THRESHOLDS.find? fun g => decide (g.2.1 ≤ score ∧ score ≤ g.2.2) with
  | some g => g.1
  | none => Grade.UNKNOWN

/-- `StrategyScorer.calculate_score`: six weighted factors, psychology
subtracting, clamped to [0,100], rounded to one decimal, graded. -/
def calculate_score (s : Signals) (vol : Option VolMetrics) (trend : Option TrendMetrics)
    (session : Option Session) (perf : Option SessionPerf) (hour now : ℕ) : ScoreResult :=
  let tS := calculate_trend_score s trend
  let mS := calculate_momentum_score s
  let vS := calculate_volatility_score s vol
  let cS := calculate_candle_score s
  let sS := calculate_session_score session hour perf
  let pS := calculate_psychology_penalty s now
  -- weighted_score = score * abs(weight) * 100 per factor
  let tW := tS * (1/4) * 100
  let mW := mS * (1/5) * 100
  let vW := vS * (3/20) * 100
  let cW := cS * (3/20) * 100
  let sW := sS * (1/10) * 100
  let pW := pS * (3/20) * 100
  let raw := tW + mW + vW + cW + sW - pW
  let clamped := max 0 (min 100 raw)
  { final_score := pyRound 1 clamped,
    grade := get_grade clamped,
    breakdown :=
      { trend_alignment := ⟨pyRound 3 tS, 1/4, pyRound 2 tW⟩,
        momentum := ⟨pyRound 3 mS, 1/5, pyRound 2 mW⟩,
        volatility := ⟨pyRound 3 vS, 3/20, pyRound 2 vW⟩,
        candle_pattern := ⟨pyRound 3 cS, 3/20, pyRound 2 cW⟩,
        session_quality := ⟨pyRound 3 sS, 1/10, pyRound 2 sW⟩,
        psychology_risk := ⟨pyRound 3 pS, -(3/20), pyRound 2 (-pW)⟩ },
    timestamp := now }

/-! ## AIDecisionEngine (ai_engine.py), rule-based path

The trained path (sklearn classifier) is external library code; with no
persisted model `predict_trade` takes the rule-based branch, which is the path
embedded here. -/

/-- `ProbabilityEstimate` returned by `predict_trade` /
`_generate_rule_based_prediction` (the free-text `note` is omitted). -/
structure Prediction where
  probability : ℚ
  confidence : ℚ
  recommendation : Recommendation
  risk_level : RiskLevel
  model_version : String
  training_samples : ℕ
  deriving DecidableEq, Repr

/-- `AIDecisionEngine._detect_trap_signals`: perfect alignment of the bias
counts, or Bollinger percent outside the late-entry window. -/
def detect_trap_signals (s : Signals) : Bool :=
  let total := s.overall_bias.total_signals
  let maxAligned := max s.overall_bias.bullish_signals s.overall_bias.bearish_signals
  let perfect :=
    decide (total > 0) &&
      decide ((maxAligned : ℚ) / (total : ℚ) ≥ perfect_setup_threshold)
  let bbPercent := s.bollinger.percent
  perfect || decide (bbPercent > late_entry_threshold)
    || decide (bbPercent < 1 - late_entry_threshold)

/-- `AIDecisionEngine._generate_recommendation` (probability on the 0-1
scale). -/
def generate_recommendation (probability : ℚ) (s : Signals) : Recommendation :=
  if detect_trap_signals s then Recommendation.AVOID
  else if probability ≥ 7/10 then Recommendation.ENTER
  else if probability ≥ confidence_threshold then Recommendation.WAIT
  else Recommendation.AVOID

/-- `AIDecisionEngine._calculate_risk_level` (probability on the 0-1 scale):
base tier from the probability, escalated one step when Bollinger width
exceeds 0.03. -/
def calculate_risk_level (probability : ℚ) (s : Signals) : RiskLevel :=
  let base :=
    if probability ≥ 7/10 then RiskLevel.LOW
    else if probability ≥ 11/20 then RiskLevel.MEDIUM
    else RiskLevel.HIGH
  if s.bollinger.width > 3/100 then
    match base with
    | RiskLevel.LOW => RiskLevel.MEDIUM
    | RiskLevel.MEDIUM => RiskLevel.HIGH
    | RiskLevel.HIGH => RiskLevel.HIGH
  else base

/-- `AIDecisionEngine._generate_rule_based_prediction`: directional bias count
over total, scaled by average signal strength, clamped to [20,80], rounded to
one decimal. -/
def generate_rule_based_prediction (s : Signals) (direction : Option Direction) :
    Prediction :=
  let bullish := s.overall_bias.bullish_signals
  let bearish := s.overall_bias.bearish_signals
  let total := s.overall_bias.total_signals
  let base : ℚ :=
    match direction with
    | some Direction.CALL => if total > 0 then ((bullish : ℚ) / (total : ℚ)) * 100 else 50
    | some Direction.PUT => if total > 0 then ((bearish : ℚ) / (total : ℚ)) * 100 else 50
    | none => if total > 0 then ((max bullish bearish : ℚ) / (total : ℚ)) * 100 else 50
  let avg_strength := (s.rsi.strength + s.ema.strength) / 2
  let scaled := base * (1/2 + avg_strength * (1/2))
  let clamped := min (max scaled 20) 80
  { probability := pyRound 1 clamped,
    confidence := 50,
    recommendation := generate_recommendation (clamped / 100) s,
    risk_level := calculate_risk_level (clamped / 100) s,
    model_version := "rule_based",
    training_samples := 0 }

/-- `AIDecisionEngine.predict_trade` with no trained model: falls through to
the rule-based prediction. -/
def predict_trade (s : Signals) (direction : Option Direction) : Prediction :=
  generate_rule_based_prediction s direction

/-! ## Decision policy (`LiveSignalGenerator._determine_signal`, live_data.py) -/

/-- Result of `_determine_signal`. -/
structure DecisionOut where
  action : Action
  direction : Option Direction
  confidence : Confidence
  warnings : List String
  deriving DecidableEq, Repr

/-- `LiveSignalGenerator._determine_signal`: merges score, AI prediction, trap
risk, bias and volatility into the final action (warning strings are kept in
plain ASCII). -/
def determine_signal (score : ℚ) (ai : Prediction) (trap : TrapAssessment)
    (bias_direction : BiasDirection) (bias_confidence : ℚ) (vol : VolMetrics) :
    DecisionOut :=
  let _ := bias_confidence
  let ai_rec := ai.recommendation
  let ai_prob := ai.probability
  let trap_risk := trap.overall_risk_score
  let warnings : List String :=
    (if trap_risk ≥ 50 then ["HIGH TRAP RISK: Multiple manipulation patterns detected"]
     else if trap_risk ≥ 25 then ["Moderate trap risk detected"] else [])
    ++ (if vol.is_high_volatility then ["High volatility - increased risk"] else [])
  if ai_rec = Recommendation.AVOID ∨ trap_risk ≥ 50 then
    { action := Action.DO_NOT_TRADE, direction := none, confidence := Confidence.HIGH,
      warnings := warnings ++ ["Setup flagged as dangerous"] }
  else if score ≥ 70 ∧ ai_prob ≥ 60 ∧ trap_risk < 25
      ∧ bias_direction = BiasDirection.BULLISH then
    { action := Action.BUY, direction := some Direction.CALL,
      confidence := if score ≥ 80 then Confidence.HIGH else Confidence.MEDIUM,
      warnings := warnings }
  else if score ≥ 70 ∧ ai_prob ≥ 60 ∧ trap_risk < 25
      ∧ bias_direction = BiasDirection.BEARISH then
    { action := Action.SELL, direction := some Direction.PUT,
      confidence := if score ≥ 80 then Confidence.HIGH else Confidence.MEDIUM,
      warnings := warnings }
  else if score ≥ 55 ∧ ai_prob ≥ 55 ∧ trap_risk < 40
      ∧ bias_direction = BiasDirection.BULLISH then
    { action := Action.BUY, direction := some Direction.CALL,
      confidence := Confidence.LOW,
      warnings := warnings ++ ["Marginal setup - proceed with caution"] }
  else if score ≥ 55 ∧ ai_prob ≥ 55 ∧ trap_risk < 40
      ∧ bias_direction = BiasDirection.BEARISH then
    { action := Action.SELL, direction := some Direction.PUT,
      confidence := Confidence.LOW,
      warnings := warnings ++ ["Marginal setup - proceed with caution"] }
  else
    { action := Action.WAIT, direction := none, confidence := Confidence.MEDIUM,
      warnings := warnings ++ ["No clear setup - wait for better opportunity"] }

/-! ## TechnicalAnalysisEngine (technical_analysis.py)

The numeric indicator columns are produced by the external `ta` library.
Modelled from the spec: RSI is the Wilder/EMA-smoothed relative-strength
index, EMA an exponential moving average, MACD the fast/slow EMA difference
with a signal-line EMA, Bollinger a moving average plus/minus two rolling
standard deviations with width `(upper-lower)/middle` and percent
`(close-lower)/(upper-lower)`.  The square root inside the rolling standard
deviation is irrational, so it is taken as an explicit function parameter
`sqrtQ`; every theorem below holds for an arbitrary `sqrtQ`.  The candle
columns, per-bar signal labels, crossover scan and `get_current_signals` are
this repository's own code and are translated directly. -/

/-- One OHLCV bar (`open` is a Lean keyword, hence `open_`). -/
structure Candle where
  timestamp : ℕ
  open_ : ℚ
  high : ℚ
  low : ℚ
  close : ℚ
  volume : ℚ
  deriving DecidableEq, Repr

/-- Derived per-bar columns added by `calculate_all_indicators`. -/
structure IndRow where
  rsi : ℚ
  rsi_signal : IndSignal
  ema_fast : ℚ
  ema_slow : ℚ
  ema_signal : IndSignal
  ema_crossover : Crossover
  macd : ℚ
  macd_signal : ℚ
  macd_histogram : ℚ
  macd_trend : IndSignal
  bb_upper : ℚ
  bb_middle : ℚ
  bb_lower : ℚ
  bb_width : ℚ
  bb_percent : ℚ
  bb_signal : IndSignal
  candle_body : ℚ
  candle_range : ℚ
  upper_wick : ℚ
  lower_wick : ℚ
  candle_type : CandleType
  candle_pattern : CandlePattern
  deriving DecidableEq, Repr

/-- A candle frame, optionally extended with the indicator columns
(`ind = none` models a frame on which `calculate_all_indicators` has not
added columns; `.get` reads then fall back to their defaults). -/
structure DataFrame where
  candles : List Candle
  ind : Option (List IndRow)
  deriving DecidableEq, Repr

/-- Exponential weighted mean, `adjust=False` semantics:
e_0 = x_0, e_i = (1-alpha) e_(i-1) + alpha x_i. -/
def ewmGo (alpha e : ℚ) : List ℚ → List ℚ
  | [] => []
  | x :: xs =>
    let e2 := (1 - alpha) * e + alpha * x
    e2 :: ewmGo alpha e2 xs

/-- Modelled from the spec: exponential moving average sequence. -/
def ewmAdjFalse (alpha : ℚ) : List ℚ → List ℚ
  | [] => []
  | x :: xs => x :: ewmGo alpha x xs

/-- EMA with pandas `span` parameterization: alpha = 2/(span+1). -/
def emaSpan (span : ℕ) (xs : List ℚ) : List ℚ :=
  ewmAdjFalse (2 / ((span : ℚ) + 1)) xs

/-- Mean of a list (0 for the empty list). -/
def listMean (xs : List ℚ) : ℚ :=
  if xs.length = 0 then 0 else xs.sum / (xs.length : ℚ)

/-- Population variance of a list. -/
def popVar (xs : List ℚ) : ℚ :=
  listMean (xs.map fun x => (x - listMean xs) ^ 2)

/-- Last `w` elements of a list. -/
def takeLast (w : ℕ) (xs : List ℚ) : List ℚ :=
  xs.drop (xs.length - w)

/-- Modelled from the spec: Wilder RSI series (window `w`); a neutral 50 is
emitted for the first bar, which has no prior close to diff against. -/
def rsiList (w : ℕ) (closes : List ℚ) : List ℚ :=
  let ds := (closes.zip (closes.drop 1)).map fun p => p.2 - p.1
  let gains := ds.map fun d => max d 0
  let losses := ds.map fun d => max (-d) 0
  let g := ewmAdjFalse (1 / (w : ℚ)) gains
  let l := ewmAdjFalse (1 / (w : ℚ)) losses
  50 :: (g.zip l).map fun p =>
    if p.2 = 0 then 100 else 100 - 100 / (1 + p.1 / p.2)

/-- `TechnicalAnalysisEngine._get_rsi_signal` (thresholds 70/30 from
`INDICATOR_CONFIG`). -/
def get_rsi_signal (v : ℚ) : IndSignal :=
  if v ≥ 70 then IndSignal.OVERBOUGHT
  else if v ≤ 30 then IndSignal.OVERSOLD
  else if v > 50 then IndSignal.BULLISH
  else if v < 50 then IndSignal.BEARISH
  else IndSignal.NEUTRAL

/-- `_get_bb_signal`: close against the three bands. -/
def get_bb_signal (close upper lower middle : ℚ) : IndSignal :=
  if close ≥ upper then IndSignal.OVERBOUGHT
  else if close ≤ lower then IndSignal.OVERSOLD
  else if close > middle then IndSignal.BULLISH
  else if close < middle then IndSignal.BEARISH
  else IndSignal.NEUTRAL

/-- `_identify_pattern` on the derived candle-shape numbers.  The marubozu
fallthrough for a doji type is unreachable (a body fraction above 0.8 forces
close different from open) and maps to NONE. -/
def identify_pattern (body range_v uw lw : ℚ) (ty : CandleType) : CandlePattern :=
  if range_v = 0 then CandlePattern.NONE
  else
    let frac := if range_v > 0 then body / range_v else 0
    if frac < 1/10 then CandlePattern.DOJI
    else if lw > body * 2 ∧ uw < body * (1/2) then CandlePattern.HAMMER
    else if uw > body * 2 ∧ lw < body * (1/2) then CandlePattern.INVERTED_HAMMER
    else if frac > 4/5 then
      match ty with
      | CandleType.BULLISH => CandlePattern.MARUBOZU_BULLISH
      | CandleType.BEARISH => CandlePattern.MARUBOZU_BEARISH
      | _ => CandlePattern.NONE
    else if frac < 3/10 ∧ uw > body ∧ lw > body then CandlePattern.SPINNING_TOP
    else CandlePattern.STANDARD

/-- A zero candle used only as the (never reached) list-indexing default. -/
def dummyCandle : Candle := ⟨0, 0, 0, 0, 0, 0⟩

/-- Derived columns for every bar of a series (RSI/EMA/MACD periods 14, 9/21,
12/26/9 and Bollinger 20 +- 2 sigma from `INDICATOR_CONFIG`). -/
def computeIndicators (sqrtQ : ℚ → ℚ) (candles : List Candle) : List IndRow :=
  let closes := candles.map (·.close)
  let emaF := emaSpan 9 closes
  let emaS := emaSpan 21 closes
  let macdL := (emaSpan 12 closes).zipWith (· - ·) (emaSpan 26 closes)
  let macdSig := emaSpan 9 macdL
  let hist := macdL.zipWith (· - ·) macdSig
  let rsis := rsiList 14 closes
  (List.range candles.length).map fun i =>
    let c := candles.getD i dummyCandle
    let fast := emaF.getD i 0
    let slow := emaS.getD i 0
    let window := takeLast 20 (closes.take (i + 1))
    let m := listMean window
    let sd := sqrtQ (popVar window)
    let u := m + 2 * sd
    let l := m - 2 * sd
    let wdt := if m = 0 then 0 else (u - l) / m
    let pct := if u = l then 1/2 else (c.close - l) / (u - l)
    let mv := macdL.getD i 0
    let ms := macdSig.getD i 0
    let body := |c.close - c.open_|
    let range_v := c.high - c.low
    let uw := c.high - max c.open_ c.close
    let lw := min c.open_ c.close - c.low
    let ty : CandleType :=
      if c.close > c.open_ then CandleType.BULLISH
      else if c.close < c.open_ then CandleType.BEARISH
      else CandleType.DOJI
    { rsi := rsis.getD i 50,
      rsi_signal := get_rsi_signal (rsis.getD i 50),
      ema_fast := fast,
      ema_slow := slow,
      ema_signal :=
        if fast > slow then IndSignal.BULLISH
        else if fast < slow then IndSignal.BEARISH
        else IndSignal.NEUTRAL,
      ema_crossover :=
        if i = 0 then Crossover.NONE
        else
          let pf := emaF.getD (i - 1) 0
          let ps := emaS.getD (i - 1) 0
          if pf ≤ ps ∧ fast > slow then Crossover.BULLISH_CROSS
          else if pf ≥ ps ∧ fast < slow then Crossover.BEARISH_CROSS
          else Crossover.NONE,
      macd := mv,
      macd_signal := ms,
      macd_histogram := hist.getD i 0,
      macd_trend :=
        if mv > ms then IndSignal.BULLISH
        else if mv < ms then IndSignal.BEARISH
        else IndSignal.NEUTRAL,
      bb_upper := u,
      bb_middle := m,
      bb_lower := l,
      bb_width := wdt,
      bb_percent := pct,
      bb_signal := get_bb_signal c.close u l m,
      candle_body := body,
      candle_range := range_v,
      upper_wick := uw,
      lower_wick := lw,
      candle_type := ty,
      candle_pattern := identify_pattern body range_v uw lw ty }

/-- `TechnicalAnalysisEngine.calculate_all_indicators`: below 30 bars the
frame is returned unchanged; otherwise all indicator columns are added. -/
def calculate_all_indicators (sqrtQ : ℚ → ℚ) (df : DataFrame) : DataFrame :=
  if df.candles.length < 30 then df
  else { candles := df.candles, ind := some (computeIndicators sqrtQ df.candles) }

/-- Read a derived column of the last row, with the `.get` default used when
the indicator columns are absent. -/
def rowGet {α : Type} (row : Option IndRow) (f : IndRow → α) (d : α) : α :=
  match row with
  | some r => f r
  | none => d

/-- `_calculate_signal_strength` for RSI: distance from 50, scaled. -/
def calculate_signal_strength (v : ℚ) : ℚ := |v - 50| / 50

/-- `_calculate_ema_strength`: percentage gap of the EMAs, scaled by 10 and
capped at 1; 0.5 when the slow EMA is zero. -/
def calculate_ema_strength (row : Option IndRow) : ℚ :=
  let fast := rowGet row (·.ema_fast) 0
  let slow := rowGet row (·.ema_slow) 0
  if slow = 0 then 1/2
  else min (|fast - slow| / slow * 10) 1

/-- `_calculate_macd_strength`: scaled absolute histogram, capped at 1. -/
def calculate_macd_strength (row : Option IndRow) : ℚ :=
  min (|rowGet row (·.macd_histogram) 0| * 100) 1

/-- `_calculate_overall_bias`: tally of bullish-like vs bearish-like values
over rsi_signal, ema_signal, macd_trend, bb_signal and candle_type. -/
def calculate_overall_bias (row : Option IndRow) : OverallBias :=
  let inds := [rowGet row (·.rsi_signal) IndSignal.NEUTRAL,
               rowGet row (·.ema_signal) IndSignal.NEUTRAL,
               rowGet row (·.macd_trend) IndSignal.NEUTRAL,
               rowGet row (·.bb_signal) IndSignal.NEUTRAL]
  let cty := rowGet row (·.candle_type) CandleType.NEUTRAL
  let bullish := (inds.countP fun x => x = IndSignal.BULLISH ∨ x = IndSignal.OVERSOLD)
    + (if cty = CandleType.BULLISH then 1 else 0)
  let bearish := (inds.countP fun x => x = IndSignal.BEARISH ∨ x = IndSignal.OVERBOUGHT)
    + (if cty = CandleType.BEARISH then 1 else 0)
  let total : ℕ := 5
  if bullish > bearish then
    { direction := BiasDirection.BULLISH, confidence := pyRound 2 ((bullish : ℚ) / total),
      bullish_signals := bullish, bearish_signals := bearish, total_signals := total }
  else if bearish > bullish then
    { direction := BiasDirection.BEARISH, confidence := pyRound 2 ((bearish : ℚ) / total),
      bullish_signals := bullish, bearish_signals := bearish, total_signals := total }
  else
    { direction := BiasDirection.NEUTRAL, confidence := 1/2,
      bullish_signals := bullish, bearish_signals := bearish, total_signals := total }

/-- `TechnicalAnalysisEngine.get_current_signals`: the signals dictionary for
the last bar; `none` for an empty frame (the source returns `{}`). -/
def get_current_signals (df : DataFrame) : Option Signals :=
  match df.candles.getLast? with
  | none => none
  | some last =>
    let row : Option IndRow := df.ind.bind (·.getLast?)
    some
      { timestamp := last.timestamp,
        price := last.close,
        rsi :=
          { value := pyRound 2 (rowGet row (·.rsi) 50),
            signal := rowGet row (·.rsi_signal) IndSignal.NEUTRAL,
            strength := calculate_signal_strength (rowGet row (·.rsi) 50) },
        ema :=
          { fast := pyRound 5 (rowGet row (·.ema_fast) 0),
            slow := pyRound 5 (rowGet row (·.ema_slow) 0),
            signal := rowGet row (·.ema_signal) IndSignal.NEUTRAL,
            crossover := rowGet row (·.ema_crossover) Crossover.NONE,
            strength := calculate_ema_strength row },
        macd :=
          { value := pyRound 5 (rowGet row (·.macd) 0),
            signal_line := pyRound 5 (rowGet row (·.macd_signal) 0),
            histogram := pyRound 5 (rowGet row (·.macd_histogram) 0),
            trend := rowGet row (·.macd_trend) IndSignal.NEUTRAL,
            strength := calculate_macd_strength row },
        bollinger :=
          { upper := pyRound 5 (rowGet row (·.bb_upper) 0),
            middle := pyRound 5 (rowGet row (·.bb_middle) 0),
            lower := pyRound 5 (rowGet row (·.bb_lower) 0),
            width := pyRound 4 (rowGet row (·.bb_width) 0),
            percent := pyRound 4 (rowGet row (·.bb_percent) (1/2)),
            signal := rowGet row (·.bb_signal) IndSignal.NEUTRAL },
        candle :=
          { type := rowGet row (·.candle_type) CandleType.NEUTRAL,
            pattern := rowGet row (·.candle_pattern) CandlePattern.NONE },
        overall_bias := calculate_overall_bias row }

/-- True range of bar `i` (pandas row-wise max; the shifted previous close is
missing for the first bar, where only high-low remains). -/
def trueRange (candles : List Candle) (i : ℕ) : ℚ :=
  let c := candles.getD i dummyCandle
  let tr1 := c.high - c.low
  if i = 0 then tr1
  else
    let pc := (candles.getD (i - 1) dummyCandle).close
    max tr1 (max |c.high - pc| |c.low - pc|)

/-- `TechnicalAnalysisEngine.calculate_volatility` (period 14). -/
def calculate_volatility (df : DataFrame) : VolMetrics :=
  let period : ℕ := 14
  let candles := df.candles
  if candles.length < period then
    { atr := 0, volatility_pct := 0, is_high_volatility := false, avg_volatility := none }
  else
    let trs := (List.range candles.length).map (trueRange candles)
    let atr := (takeLast period trs).sum / (period : ℚ)
    let current_price := (candles.getLast?.map (·.close)).getD 0
    let volatility_pct := if current_price > 0 then atr / current_price * 100 else 0
    let avg := trs.sum / (trs.length : ℚ)
    { atr := pyRound 5 atr,
      volatility_pct := pyRound 4 volatility_pct,
      is_high_volatility := decide (atr > avg * volatility_spike_threshold),
      avg_volatility := some (pyRound 5 avg) }

/-- `TechnicalAnalysisEngine.get_trend_strength`: ordinary least-squares fit
of close against bar index (the numpy polyfit), slope normalized by the mean
price, R-squared as strength.  Exact rational division is used throughout
(rational division by zero yields 0 in Lean). -/
def get_trend_strength (df : DataFrame) : TrendMetrics :=
  let closes := df.candles.map (·.close)
  let n := closes.length
  if n < 20 then
    { trend := TrendDirection.UNKNOWN, strength := 0, slope := none, is_strong_trend := none }
  else
    let nQ : ℚ := n
    let xs : List ℚ := (List.range n).map fun i => (i : ℚ)
    let sx := xs.sum
    let sy := closes.sum
    let sxx := (xs.map fun x => x ^ 2).sum
    let sxy := ((xs.zip closes).map fun p => p.1 * p.2).sum
    let slope := (nQ * sxy - sx * sy) / (nQ * sxx - sx ^ 2)
    let avg_price := sy / nQ
    let normalized_slope := slope / avg_price * 100
    let trend :=
      if normalized_slope > 1/10 then TrendDirection.UPTREND
      else if normalized_slope < -(1/10) then TrendDirection.DOWNTREND
      else TrendDirection.SIDEWAYS
    let intercept := (sy - slope * sx) / nQ
    let ss_res := ((xs.zip closes).map fun p => (p.2 - (slope * p.1 + intercept)) ^ 2).sum
    let ss_tot := (closes.map fun y => (y - avg_price) ^ 2).sum
    let r_squared := if ss_tot > 0 then 1 - ss_res / ss_tot else 0
    { trend := trend,
      strength := pyRound 3 r_squared,
      slope := some (pyRound 4 normalized_slope),
      is_strong_trend := some (decide (r_squared > 7/10)) }

/-! ## LiveSignalGenerator.generate_signal (live_data.py) -/

/-- The signals dictionary of an empty frame as seen through the `.get`
defaults of every downstream consumer (the source passes `{}` and each reader
falls back to its default; no reader consumes `timestamp` or `price`). -/
def emptyDictSignals : Signals :=
  { timestamp := 0,
    price := 0,
    rsi := { value := 50, signal := IndSignal.NEUTRAL, strength := 1/2 },
    ema := { fast := 0, slow := 0, signal := IndSignal.NEUTRAL,
             crossover := Crossover.NONE, strength := 1/2 },
    macd := { value := 0, signal_line := 0, histogram := 0,
              trend := IndSignal.NEUTRAL, strength := 1/2 },
    bollinger := { upper := 0, middle := 0, lower := 0, width := 1/50,
                   percent := 1/2, signal := IndSignal.NEUTRAL },
    candle := { type := CandleType.NEUTRAL, pattern := CandlePattern.NONE },
    overall_bias := { direction := BiasDirection.NEUTRAL, confidence := 1/2,
                      bullish_signals := 0, bearish_signals := 0, total_signals := 5 } }

/-- All intermediate values of one `generate_signal` analysis pass (lines
311-348 of live_data.py), bundled. -/
structure PipelineRun where
  analyzed : DataFrame
  signals : Option Signals
  volatility : VolMetrics
  trend : TrendMetrics
  score : ScoreResult
  trap : TrapAssessment
  ai : Prediction
  decision : DecisionOut
  deriving Repr

/-- The analysis chain of `generate_signal` after the data fetch: indicators,
current signals, volatility, trend, strategy score, trap analysis, AI
prediction and final decision.  `session` is the current session from
`get_market_status` (wall-clock derived, fixed here as an input), `perf` the
historical session-performance row, `now` the wall clock. -/
def analysis_pipeline (sqrtQ : ℚ → ℚ) (df : DataFrame) (session : Session)
    (perf : Option SessionPerf) (now : ℕ) : PipelineRun :=
  let analyzed := calculate_all_indicators sqrtQ df
  let sigOpt := get_current_signals analyzed
  let s := sigOpt.getD emptyDictSignals
  let vol := calculate_volatility analyzed
  let trend := get_trend_strength analyzed
  -- session is always supplied here, so the wall-clock hour argument of
  -- calculate_score is never read
  let score := calculate_score s (some vol) (some trend) (some session) perf 0 now
  let hist : Option ℚ := analyzed.ind.map fun rows => listMean (rows.map (·.bb_width))
  let trap := analyze_setup s hist now
  let bias_direction := s.overall_bias.direction
  let bias_confidence := s.overall_bias.confidence
  let direction : Option Direction :=
    if bias_direction = BiasDirection.BULLISH then some Direction.CALL
    else if bias_direction = BiasDirection.BEARISH then some Direction.PUT
    else none
  let ai := predict_trade s direction
  let decision := determine_signal score.final_score ai trap bias_direction
    bias_confidence vol
  { analyzed := analyzed, signals := sigOpt, volatility := vol, trend := trend,
    score := score, trap := trap, ai := ai, decision := decision }

/-- The fully-populated signal dictionary returned by `generate_signal`
(asset/timeframe echo strings, market status and the nested details echo are
omitted). -/
structure FullSignal where
  signal : Action
  direction : Option Direction
  price : ℚ
  probability : ℚ
  confidence : Confidence
  score : ℚ
  risk_level : RiskLevel
  warnings : List String
  session : Session
  timestamp : ℕ
  deriving DecidableEq, Repr

/-- `generate_signal` output: either the insufficient-data dictionary
(`'signal': 'NO_DATA'`) or the full signal. -/
inductive SignalOutput
  | noData (timestamp : ℕ)
  | full (r : FullSignal)
  deriving DecidableEq, Repr

/-- The action carried by a `SignalOutput`. -/
def SignalOutput.action : SignalOutput → Action
  | SignalOutput.noData _ => Action.NO_DATA
  | SignalOutput.full r => r.signal

/-- `LiveSignalGenerator.generate_signal` after the data fetch: the
insufficient-data guard, then the analysis chain. -/
def generate_signal (sqrtQ : ℚ → ℚ) (df : DataFrame) (session : Session)
    (perf : Option SessionPerf) (now : ℕ) : SignalOutput :=
  if df.candles.length = 0 ∨ df.candles.length < 30 then SignalOutput.noData now
  else
    let run := analysis_pipeline sqrtQ df session perf now
    SignalOutput.full
      { signal := run.decision.action,
        direction := run.decision.direction,
        price := pyRound 5 (((df.candles.getLast?.map (·.close)).getD 0)),
        probability := run.ai.probability,
        confidence := run.decision.confidence,
        score := run.score.final_score,
        risk_level := run.ai.risk_level,
        warnings := run.decision.warnings,
        session := session,
        timestamp := now }

/-! ## Concrete fixtures used by witnesses and counterexamples -/

/-- A neutral signals dictionary with every category at its resting value. -/
def sigNeutral : Signals := emptyDictSignals

/-- Signals whose five bias contributors all lean bullish: perfect alignment
(5 of 5), mid-band Bollinger position, modest width, no divergence. -/
def sigPerfect : Signals :=
  { emptyDictSignals with
    rsi := { value := 55, signal := IndSignal.BULLISH, strength := 1/10 },
    overall_bias := { direction := BiasDirection.BULLISH, confidence := 1,
                      bullish_signals := 5, bearish_signals := 0, total_signals := 5 } }

/-- Signals for the rule-based prediction at bias 3 of 5 bullish and signal
strengths 0.123. -/
def sigRuleBased : Signals :=
  { emptyDictSignals with
    rsi := { value := 50, signal := IndSignal.NEUTRAL, strength := 123/1000 },
    ema := { fast := 0, slow := 0, signal := IndSignal.NEUTRAL,
             crossover := Crossover.NONE, strength := 123/1000 },
    overall_bias := { direction := BiasDirection.BULLISH, confidence := 3/5,
                      bullish_signals := 3, bearish_signals := 2, total_signals := 5 } }

/-- An AVOID prediction. -/
def aiAvoid : Prediction :=
  { probability := 75, confidence := 50, recommendation := Recommendation.AVOID,
    risk_level := RiskLevel.HIGH, model_version := "rule_based", training_samples := 0 }

/-- An ENTER prediction with probability 75. -/
def aiEnter : Prediction :=
  { probability := 75, confidence := 50, recommendation := Recommendation.ENTER,
    risk_level := RiskLevel.LOW, model_version := "rule_based", training_samples := 0 }

/-- A clean trap assessment (risk 0). -/
def trapClean : TrapAssessment :=
  { traps_detected := [], risk_factors := [], overall_risk_score := 0,
    assessment := Assessment.LOW_RISK, analysis_time := 0 }

/-- A trap assessment at risk 55 (perfect setup plus late entry). -/
def trapHigh : TrapAssessment :=
  { traps_detected := [TrapType.PERFECT_SETUP_TRAP, TrapType.LATE_ENTRY_TRAP],
    risk_factors := [], overall_risk_score := 55,
    assessment := Assessment.HIGH_RISK_TRAP, analysis_time := 0 }

/-- Quiet volatility metrics. -/
def volQuiet : VolMetrics :=
  { atr := 0, volatility_pct := 1, is_high_volatility := false, avg_volatility := none }

/-- A raw 30-bar frame with a mild uptrend. -/
def df30 : DataFrame :=
  { candles := (List.range 30).map fun i =>
      { timestamp := i, open_ := 1, high := 2, low := 1/2,
        close := 1 + (i : ℚ) / 100, volume := 1 },
    ind := none }

/-- A raw 10-bar frame (below the 30-bar minimum). -/
def df10 : DataFrame :=
  { candles := (List.range 10).map fun i =>
      { timestamp := i, open_ := 1, high := 2, low := 1/2,
        close := 1 + (i : ℚ) / 100, volume := 1 },
    ind := none }

/-- A stand-in square-root function (the theorems hold for any). -/
def sqrtZero : ℚ → ℚ := fun _ => 0

/-- Number of `SCORE_THRESHOLDS` bands whose inclusive range contains the
score. -/
def bandsMatching (score : ℚ) : ℕ :=
  (SCORE_THRESHOLDS.map fun g => if g.2.1 ≤ score ∧ score ≤ g.2.2 then 1 else 0).sum

/-- The bias count selected by the requested direction in
`_generate_rule_based_prediction`: bullish for CALL, bearish for PUT, the
larger of the two when no direction is given. -/
def dirSignalCount (s : Signals) (dir : Option Direction) : ℕ :=
  match dir with
  | some Direction.CALL => s.overall_bias.bullish_signals
  | some Direction.PUT => s.overall_bias.bearish_signals
  | none => max s.overall_bias.bullish_signals s.overall_bias.bearish_signals

/-- The neutral signals dictionary read off a frame that has no indicator
columns: every categorical field at its `.get` default, RSI value 50. -/
def neutralSignals (c : Candle) : Signals :=
  { timestamp := c.timestamp,
    price := c.close,
    rsi := { value := 50, signal := IndSignal.NEUTRAL, strength := 0 },
    ema := { fast := 0, slow := 0, signal := IndSignal.NEUTRAL,
             crossover := Crossover.NONE, strength := 1/2 },
    macd := { value := 0, signal_line := 0, histogram := 0,
              trend := IndSignal.NEUTRAL, strength := 0 },
    bollinger := { upper := 0, middle := 0, lower := 0, width := 0, percent := 1/2,
                   signal := IndSignal.NEUTRAL },
    candle := { type := CandleType.NEUTRAL, pattern := CandlePattern.NONE },
    overall_bias := { direction := BiasDirection.NEUTRAL, confidence := 1/2,
                      bullish_signals := 0, bearish_signals := 0, total_signals := 5 } }

/-! ## Claim theorems -/

/-- Claim C1: the decision function returns DO_NOT_TRADE whenever the
probability estimate's recommendation is AVOID or the trap overall risk score
is at least 50, for every score, bias, confidence and volatility input. -/
theorem C1_decision_containment (score : ℚ) (ai : Prediction) (trap : TrapAssessment)
    (bias : BiasDirection) (conf : ℚ) (vol : VolMetrics)
    (h : ai.recommendation = Recommendation.AVOID ∨ trap.overall_risk_score ≥ 50) :
    (determine_signal score ai trap bias conf vol).action = Action.DO_NOT_TRADE := by
  simp only [determine_signal]
  rw [if_pos h]

/-- Witness for C1 at a concrete input: an AVOID prediction with a clean trap
assessment and a score of 95 still yields DO_NOT_TRADE. -/
theorem C1_decision_containment_witness :
    (aiAvoid.recommendation = Recommendation.AVOID ∨ trapClean.overall_risk_score ≥ 50)
    ∧ (determine_signal 95 aiAvoid trapClean BiasDirection.BULLISH 1 volQuiet).action
        = Action.DO_NOT_TRADE :=
  ⟨Or.inl rfl,
   C1_decision_containment 95 aiAvoid trapClean BiasDirection.BULLISH 1 volQuiet (Or.inl rfl)⟩

/-- Claim C4: the trap detector's overall risk score is exactly
30 per fired perfect-setup check, 25 per late-entry, 25 per volatility-spike
and 15 per divergence, and the assessment tiers are HIGH at 50 and above,
MODERATE in [25,50), LOW below 25. -/
theorem C4_trap_risk_aggregate (s : Signals) (hist : Option ℚ) (now : ℕ) :
    (analyze_setup s hist now).overall_risk_score
        = 30 * (if check_perfect_setup s then 1 else 0)
          + 25 * (if check_late_entry s then 1 else 0)
          + 25 * (if check_volatility_spike s hist then 1 else 0)
          + 15 * (if check_indicator_divergence s then 1 else 0)
    ∧ ((analyze_setup s hist now).assessment = Assessment.HIGH_RISK_TRAP
        ↔ 50 ≤ (analyze_setup s hist now).overall_risk_score)
    ∧ ((analyze_setup s hist now).assessment = Assessment.MODERATE_RISK
        ↔ 25 ≤ (analyze_setup s hist now).overall_risk_score
            ∧ (analyze_setup s hist now).overall_risk_score < 50)
    ∧ ((analyze_setup s hist now).assessment = Assessment.LOW_RISK
        ↔ (analyze_setup s hist now).overall_risk_score < 25) := by
  unfold analyze_setup
  cases hp : check_perfect_setup s <;> cases hl : check_late_entry s <;>
    cases hv : check_volatility_spike s hist <;> cases hd : check_indicator_divergence s <;>
    simp only [hp, hl, hv, hd] <;> decide

/-- Claim C9: the trap risk score is monotone in the fired checks; any input
whose fired checks include those of another input scores at least as high.
This covers in particular a pair differing in exactly one additional check. -/
theorem C9_trap_monotonicity (s1 s2 : Signals) (h1 h2 : Option ℚ) (n1 n2 : ℕ)
    (hp : check_perfect_setup s1 = true → check_perfect_setup s2 = true)
    (hl : check_late_entry s1 = true → check_late_entry s2 = true)
    (hv : check_volatility_spike s1 h1 = true → check_volatility_spike s2 h2 = true)
    (hd : check_indicator_divergence s1 = true → check_indicator_divergence s2 = true) :
    (analyze_setup s1 h1 n1).overall_risk_score
      ≤ (analyze_setup s2 h2 n2).overall_risk_score := by
  have step : ∀ (a b : Bool) (k : ℕ), (a = true → b = true) →
      (if a then k else 0) ≤ (if b then k else 0) := by
    intro a b k hab
    cases a <;> cases b <;> simp_all
  unfold analyze_setup
  simp only []
  exact Nat.add_le_add (Nat.add_le_add (Nat.add_le_add
    (step _ _ _ hp) (step _ _ _ hl)) (step _ _ _ hv)) (step _ _ _ hd)

/-- Witness for C9 at a concrete pair: a fully neutral setup (risk 0) against
one that additionally fires the perfect-setup check (risk 30). -/
theorem C9_trap_monotonicity_witness :
    ((check_perfect_setup sigNeutral = true → check_perfect_setup sigPerfect = true)
      ∧ (check_late_entry sigNeutral = true → check_late_entry sigPerfect = true)
      ∧ (check_volatility_spike sigNeutral none = true
          → check_volatility_spike sigPerfect none = true)
      ∧ (check_indicator_divergence sigNeutral = true
          → check_indicator_divergence sigPerfect = true))
    ∧ (analyze_setup sigNeutral none 0).overall_risk_score
        ≤ (analyze_setup sigPerfect none 0).overall_risk_score := by
  have hperf : check_perfect_setup sigPerfect = true := by
    norm_num [check_perfect_setup, sigPerfect, emptyDictSignals, perfect_setup_threshold]
  have hlateN : check_late_entry sigNeutral = false := by
    norm_num [check_late_entry, sigNeutral, emptyDictSignals, late_entry_threshold]
  have hvolN : check_volatility_spike sigNeutral none = false := by
    norm_num [check_volatility_spike, sigNeutral, emptyDictSignals]
  have hdivN : check_indicator_divergence sigNeutral = false := by
    simp [check_indicator_divergence, sigNeutral, emptyDictSignals, List.countP,
      List.countP.go]
  refine ⟨⟨fun _ => hperf, fun h => absurd h (by simp [hlateN]),
           fun h => absurd h (by simp [hvolN]), fun h => absurd h (by simp [hdivN])⟩, ?_⟩
  exact C9_trap_monotonicity sigNeutral sigPerfect none none 0 0
    (fun _ => hperf) (fun h => absurd h (by simp [hlateN]))
    (fun h => absurd h (by simp [hvolN])) (fun h => absurd h (by simp [hdivN]))

/-- Every decision falls into one of four shapes: DO_NOT_TRADE or WAIT with
no direction, BUY with CALL under a BULLISH bias, SELL with PUT under a
BEARISH bias. -/
theorem determine_signal_shape (score : ℚ) (ai : Prediction) (trap : TrapAssessment)
    (bias : BiasDirection) (conf : ℚ) (vol : VolMetrics) :
    ∀ r, determine_signal score ai trap bias conf vol = r →
      (r.action = Action.DO_NOT_TRADE ∧ r.direction = none)
      ∨ (r.action = Action.BUY ∧ r.direction = some Direction.CALL
          ∧ bias = BiasDirection.BULLISH)
      ∨ (r.action = Action.SELL ∧ r.direction = some Direction.PUT
          ∧ bias = BiasDirection.BEARISH)
      ∨ (r.action = Action.WAIT ∧ r.direction = none) := by
  intro r hr
  simp only [determine_signal] at hr
  split_ifs at hr <;> subst hr <;>
    first
      | exact Or.inl ⟨rfl, rfl⟩
      | exact Or.inr (Or.inl ⟨rfl, rfl, by tauto⟩)
      | exact Or.inr (Or.inr (Or.inl ⟨rfl, rfl, by tauto⟩))
      | exact Or.inr (Or.inr (Or.inr ⟨rfl, rfl⟩))

/-- Claim C10: coupling of action, direction and bias in the decision
function: BUY forces direction CALL under a BULLISH bias, SELL forces PUT
under a BEARISH bias, WAIT and DO_NOT_TRADE carry no direction, and a NEUTRAL
bias never yields BUY or SELL. -/
theorem C10_action_direction_coupling (score : ℚ) (ai : Prediction) (trap : TrapAssessment)
    (bias : BiasDirection) (conf : ℚ) (vol : VolMetrics) :
    ((determine_signal score ai trap bias conf vol).action = Action.BUY
      → (determine_signal score ai trap bias conf vol).direction = some Direction.CALL
        ∧ bias = BiasDirection.BULLISH)
    ∧ ((determine_signal score ai trap bias conf vol).action = Action.SELL
      → (determine_signal score ai trap bias conf vol).direction = some Direction.PUT
        ∧ bias = BiasDirection.BEARISH)
    ∧ ((determine_signal score ai trap bias conf vol).action = Action.WAIT
        ∨ (determine_signal score ai trap bias conf vol).action = Action.DO_NOT_TRADE
      → (determine_signal score ai trap bias conf vol).direction = none)
    ∧ (bias = BiasDirection.NEUTRAL
      → (determine_signal score ai trap bias conf vol).action ≠ Action.BUY
        ∧ (determine_signal score ai trap bias conf vol).action ≠ Action.SELL) := by
  have h := determine_signal_shape score ai trap bias conf vol
    (determine_signal score ai trap bias conf vol) rfl
  rcases h with ⟨ha, hd⟩ | ⟨ha, hd, hb⟩ | ⟨ha, hd, hb⟩ | ⟨ha, hd⟩ <;>
    refine ⟨fun hh => ?_, fun hh => ?_, fun hh => ?_, fun hh => ?_⟩ <;> simp_all

/-- Witness for C10 at a concrete input: a strong bullish setup produces BUY,
and the theorem yields its CALL direction. -/
theorem C10_action_direction_coupling_witness :
    (determine_signal 85 aiEnter trapClean BiasDirection.BULLISH 1 volQuiet).action
        = Action.BUY
    ∧ (determine_signal 85 aiEnter trapClean BiasDirection.BULLISH 1 volQuiet).direction
        = some Direction.CALL
    ∧ BiasDirection.BULLISH = BiasDirection.BULLISH := by
  have hact : (determine_signal 85 aiEnter trapClean BiasDirection.BULLISH 1 volQuiet).action
      = Action.BUY := by
    norm_num [determine_signal, aiEnter, trapClean, volQuiet]
    simp
  exact ⟨hact,
    ((C10_action_direction_coupling 85 aiEnter trapClean BiasDirection.BULLISH 1
       volQuiet).1 hact).1, rfl⟩

/-- Counterexample to claim C2: the score 40.5 lies in [0,100] but matches no
band of `SCORE_THRESHOLDS`, and the grade lookup falls through to Unknown:
the bands are contiguous only over the integers. -/
theorem C2_counterexample :
    ((0 : ℚ) ≤ 81/2 ∧ (81/2 : ℚ) ≤ 100)
    ∧ bandsMatching (81/2) = 0
    ∧ get_grade (81/2) = Grade.UNKNOWN := by
  refine ⟨by norm_num, ?_, ?_⟩
  · norm_num [bandsMatching, SCORE_THRESHOLDS]
  · norm_num [get_grade, SCORE_THRESHOLDS, List.find?]

/-- Claim C2 (amended to integer scores): every integer score from 0 to 100
matches exactly one band of `SCORE_THRESHOLDS`, and the grade lookup never
falls through to Unknown there. -/
theorem C2_integer_grade_partition (n : ℕ) (hn : n ≤ 100) :
    bandsMatching (n : ℚ) = 1 ∧ get_grade (n : ℚ) ≠ Grade.UNKNOWN := by
  have h0 : (0 : ℚ) ≤ (n : ℚ) := Nat.cast_nonneg n
  rcases Nat.lt_or_ge n 41 with h1 | h1
  · have hA : (n : ℚ) ≤ 40 := by exact_mod_cast Nat.lt_succ_iff.mp h1
    have hB : ¬ ((41 : ℚ) ≤ (n : ℚ)) := by exact_mod_cast Nat.not_le.mpr h1
    have hC : ¬ ((61 : ℚ) ≤ (n : ℚ)) := by
      exact_mod_cast Nat.not_le.mpr (by omega : n < 61)
    have hD : ¬ ((76 : ℚ) ≤ (n : ℚ)) := by
      exact_mod_cast Nat.not_le.mpr (by omega : n < 76)
    simp [bandsMatching, get_grade, SCORE_THRESHOLDS, List.find?, h0, hA, hB, hC, hD]
  · rcases Nat.lt_or_ge n 61 with h2 | h2
    · have hA : ¬ ((n : ℚ) ≤ 40) := by
        exact_mod_cast Nat.not_le.mpr (by omega : 40 < n)
      have hB : (41 : ℚ) ≤ (n : ℚ) := by exact_mod_cast h1
      have hB2 : (n : ℚ) ≤ 60 := by exact_mod_cast Nat.lt_succ_iff.mp h2
      have hC : ¬ ((61 : ℚ) ≤ (n : ℚ)) := by exact_mod_cast Nat.not_le.mpr h2
      have hD : ¬ ((76 : ℚ) ≤ (n : ℚ)) := by
        exact_mod_cast Nat.not_le.mpr (by omega : n < 76)
      simp [bandsMatching, get_grade, SCORE_THRESHOLDS, List.find?, h0, hA, hB, hB2, hC, hD]
    · rcases Nat.lt_or_ge n 76 with h3 | h3
      · have hA : ¬ ((n : ℚ) ≤ 40) := by
          exact_mod_cast Nat.not_le.mpr (by omega : 40 < n)
        have hB2 : ¬ ((n : ℚ) ≤ 60) := by
          exact_mod_cast Nat.not_le.mpr (by omega : 60 < n)
        have hC : (61 : ℚ) ≤ (n : ℚ) := by exact_mod_cast h2
        have hC2 : (n : ℚ) ≤ 75 := by exact_mod_cast Nat.lt_succ_iff.mp h3
        have hD : ¬ ((76 : ℚ) ≤ (n : ℚ)) := by exact_mod_cast Nat.not_le.mpr h3
        simp [bandsMatching, get_grade, SCORE_THRESHOLDS, List.find?, h0, hA, hB2, hC, hC2, hD]
      · have hA : ¬ ((n : ℚ) ≤ 40) := by
          exact_mod_cast Nat.not_le.mpr (by omega : 40 < n)
        have hB2 : ¬ ((n : ℚ) ≤ 60) := by
          exact_mod_cast Nat.not_le.mpr (by omega : 60 < n)
        have hC2 : ¬ ((n : ℚ) ≤ 75) := by
          exact_mod_cast Nat.not_le.mpr (by omega : 75 < n)
        have hD : (76 : ℚ) ≤ (n : ℚ) := by exact_mod_cast h3
        have hD2 : (n : ℚ) ≤ 100 := by exact_mod_cast hn
        simp [bandsMatching, get_grade, SCORE_THRESHOLDS, List.find?, h0, hA, hB2, hC2, hD, hD2]

/-- Witness for C2 (amended) at the concrete integer score 60. -/
theorem C2_integer_grade_partition_witness :
    (60 ≤ 100)
    ∧ bandsMatching ((60 : ℕ) : ℚ) = 1 ∧ get_grade ((60 : ℕ) : ℚ) ≠ Grade.UNKNOWN :=
  ⟨by omega, C2_integer_grade_partition 60 (by omega)⟩

/-- Counterexample to claim C5: at bullish count 3 of 5 and signal strengths
0.123 the returned probability is 33.7, the one-decimal rounding of the
claim's clamped value 33.69 - the claim omits the final rounding step. -/
theorem C5_counterexample :
    (generate_rule_based_prediction sigRuleBased (some Direction.CALL)).probability
      ≠ min (max ((sigRuleBased.overall_bias.bullish_signals : ℚ)
            / (sigRuleBased.overall_bias.total_signals : ℚ) * 100
            * (1/2 + (sigRuleBased.rsi.strength + sigRuleBased.ema.strength) / 2 * (1/2)))
          20) 80 := by
  norm_num [generate_rule_based_prediction, sigRuleBased, emptyDictSignals, pyRound,
    roundHalfEven, min_def, max_def]

/-- Claim C5 (amended): the rule-based probability is the directional count
over total, times 100, scaled by the average strength factor, clamped to
[20,80] and finally rounded to one decimal; the output always lies in
[20,80]. -/
theorem C5_rule_based_probability (s : Signals) (dir : Option Direction) :
    (20 ≤ (generate_rule_based_prediction s dir).probability
      ∧ (generate_rule_based_prediction s dir).probability ≤ 80)
    ∧ (0 < s.overall_bias.total_signals →
        (generate_rule_based_prediction s dir).probability
          = pyRound 1 (min (max ((dirSignalCount s dir : ℚ)
                / (s.overall_bias.total_signals : ℚ) * 100
                * (1/2 + (s.rsi.strength + s.ema.strength) / 2 * (1/2))) 20) 80)) := by
  have hb : ∀ x : ℚ, 20 ≤ pyRound 1 (min (max x 20) 80)
      ∧ pyRound 1 (min (max x 20) 80) ≤ 80 := by
    intro x
    have h1 : (20 : ℚ) ≤ min (max x 20) 80 := le_min (le_max_right x 20) (by norm_num)
    have h2 : min (max x 20) 80 ≤ 80 := min_le_right _ _
    have h3 := @pyRound_bounds 20 80 (min (max x 20) 80) 1
      (by exact_mod_cast h1) (by exact_mod_cast h2)
    exact ⟨by exact_mod_cast h3.1, by exact_mod_cast h3.2⟩
  constructor
  · simp only [generate_rule_based_prediction]
    exact hb _
  · intro ht
    cases dir with
    | none =>
        simp only [generate_rule_based_prediction, dirSignalCount, if_pos ht]
        rw [Nat.cast_max]
    | some d =>
        cases d <;>
          simp only [generate_rule_based_prediction, dirSignalCount, if_pos ht]

/-- Witness for C5 (amended) at the concrete fixture. -/
theorem C5_rule_based_probability_witness :
    (0 < sigRuleBased.overall_bias.total_signals)
    ∧ (generate_rule_based_prediction sigRuleBased (some Direction.CALL)).probability
        = pyRound 1 (min (max ((dirSignalCount sigRuleBased (some Direction.CALL) : ℚ)
              / (sigRuleBased.overall_bias.total_signals : ℚ) * 100
              * (1/2 + (sigRuleBased.rsi.strength + sigRuleBased.ema.strength) / 2 * (1/2)))
            20) 80) :=
  ⟨by decide,
   (C5_rule_based_probability sigRuleBased (some Direction.CALL)).2 (by decide)⟩

/-- Counterexample to claim C6: a perfectly aligned bullish setup fires only
the perfect-setup trap (cumulative risk 30, below 50), yet the engine
recommends AVOID even at probability 0.75 - the AVOID condition is the
engine's own lightweight trap check, not a cumulative risk of 50 or more. -/
theorem C6_counterexample :
    generate_recommendation (3/4) sigPerfect = Recommendation.AVOID
    ∧ (analyze_setup sigPerfect none 0).overall_risk_score < 50
    ∧ (3/4 : ℚ) ≥ 7/10 := by
  have hperf : check_perfect_setup sigPerfect = true := by
    norm_num [check_perfect_setup, sigPerfect, emptyDictSignals, perfect_setup_threshold]
  have hlate : check_late_entry sigPerfect = false := by
    norm_num [check_late_entry, sigPerfect, emptyDictSignals, late_entry_threshold]
  have hvol : check_volatility_spike sigPerfect none = false := by
    norm_num [check_volatility_spike, sigPerfect, emptyDictSignals]
  have hdiv : check_indicator_divergence sigPerfect = false := by
    simp [check_indicator_divergence, sigPerfect, emptyDictSignals, List.countP,
      List.countP.go]
  refine ⟨?_, ?_, by norm_num⟩
  · have hdet : detect_trap_signals sigPerfect = true := by
      norm_num [detect_trap_signals, sigPerfect, emptyDictSignals, perfect_setup_threshold,
        late_entry_threshold]
    simp [generate_recommendation, hdet]
  · simp [analyze_setup, hperf, hlate, hvol, hdiv]

/-- Claim C6 (amended): the probability engine recommends AVOID exactly when
its internal trap check fires (perfect alignment at least 0.9, or Bollinger
percent above 0.7 or below 0.3) or the probability is below the 0.55
threshold; otherwise ENTER at probability at least 0.7 and WAIT in between. -/
theorem C6_recommendation_tiers (p : ℚ) (s : Signals) :
    (generate_recommendation p s = Recommendation.AVOID
      ↔ detect_trap_signals s = true ∨ p < confidence_threshold)
    ∧ (generate_recommendation p s = Recommendation.ENTER
      ↔ detect_trap_signals s = false ∧ 7/10 ≤ p)
    ∧ (generate_recommendation p s = Recommendation.WAIT
      ↔ detect_trap_signals s = false ∧ confidence_threshold ≤ p ∧ p < 7/10) := by
  have hct : confidence_threshold = 11/20 := rfl
  by_cases ht : detect_trap_signals s = true
  · simp [generate_recommendation, ht]
  · have ht' : detect_trap_signals s = false := by
      simpa using ht
    by_cases h7 : (7 : ℚ)/10 ≤ p
    · have hc : ¬ p < confidence_threshold := by rw [hct]; intro hl; linarith
      have hge : p ≥ 7/10 := h7
      simp only [generate_recommendation, ht', Bool.false_eq_true, if_false, ge_iff_le,
        if_pos h7]
      refine ⟨?_, ?_, ?_⟩
      · simp [hc]
      · simp [ht', h7]
      · simp [ht']
        intro _
        linarith
    · by_cases hc : confidence_threshold ≤ p
      · have hnc : ¬ p < confidence_threshold := not_lt.mpr hc
        simp only [generate_recommendation, ht', Bool.false_eq_true, if_false, ge_iff_le,
          if_neg h7, if_pos hc]
        refine ⟨by simp [hnc], by simp [h7], by simp [ht', hc, lt_of_not_le h7]⟩
      · have hlt : p < confidence_threshold := lt_of_not_le hc
        simp only [generate_recommendation, ht', Bool.false_eq_true, if_false, ge_iff_le,
          if_neg h7, if_neg hc]
        refine ⟨by simp [hlt], ?_, ?_⟩
        · simp only [ht', true_and]
          constructor
          · intro h
            exact absurd h (by decide)
          · intro h
            exact absurd (le_trans (by rw [hct]; norm_num) h) hc
        · simp only [ht', true_and]
          constructor
          · intro h
            exact absurd h (by decide)
          · intro h
            exact absurd h.1 hc

/-- Every pattern bonus is nonnegative. -/
theorem pattern_scores_nonneg (p : CandlePattern) : 0 ≤ pattern_scores p := by
  cases p <;> norm_num [pattern_scores]

/-- Every session base score lies in [0,1]. -/
theorem session_scores_bounds (x : Session) :
    0 ≤ session_scores x ∧ session_scores x ≤ 1 := by
  cases x <;> norm_num [session_scores]

/-- Every per-trap penalty is nonnegative. -/
theorem trap_penalty_nonneg (t : TrapType) : 0 ≤ trap_penalty t := by
  cases t <;> norm_num [trap_penalty]

/-- The trend-alignment raw factor lies in [0,1]. -/
theorem calculate_trend_score_bounds (s : Signals) (t : Option TrendMetrics) :
    0 ≤ calculate_trend_score s t ∧ calculate_trend_score s t ≤ 1 := by
  rcases t with _ | t <;>
    (simp only [calculate_trend_score]
     split_ifs <;> exact ⟨le_min (by norm_num) (by norm_num), min_le_left _ _⟩)

/-- The momentum raw factor lies in [0,1] when the bias confidence is
nonnegative. -/
theorem calculate_momentum_score_bounds (s : Signals)
    (h0 : 0 ≤ s.overall_bias.confidence) :
    0 ≤ calculate_momentum_score s ∧ calculate_momentum_score s ≤ 1 := by
  simp only [calculate_momentum_score]
  split_ifs <;> exact ⟨le_min (by norm_num) (by nlinarith), min_le_left _ _⟩

/-- The volatility raw factor lies in [0,1] (it is clamped on both sides). -/
theorem calculate_volatility_score_bounds (s : Signals) (vol : Option VolMetrics) :
    0 ≤ calculate_volatility_score s vol ∧ calculate_volatility_score s vol ≤ 1 := by
  simp only [calculate_volatility_score]
  rcases vol with _ | v <;>
    exact ⟨le_max_left _ _, max_le (by norm_num) (min_le_left _ _)⟩

/-- The candle-pattern raw factor lies in [0,1]. -/
theorem calculate_candle_score_bounds (s : Signals) :
    0 ≤ calculate_candle_score s ∧ calculate_candle_score s ≤ 1 := by
  simp only [calculate_candle_score]
  have hp := pattern_scores_nonneg s.candle.pattern
  split_ifs <;> exact ⟨le_min (by norm_num) (by linarith), min_le_left _ _⟩

/-- The session-quality raw factor lies in [0,1] whenever the historical
performance row is well-formed (wins at most trades). -/
theorem calculate_session_score_bounds (session : Option Session) (hour : ℕ)
    (perf : Option SessionPerf) (hperf : ∀ p ∈ perf, p.wins ≤ p.trades) :
    0 ≤ calculate_session_score session hour perf
      ∧ calculate_session_score session hour perf ≤ 1 := by
  simp only [calculate_session_score]
  obtain ⟨hb0, hb1⟩ := session_scores_bounds (session.getD (get_current_session hour))
  rcases perf with _ | p
  · exact ⟨hb0, hb1⟩
  · have hw : p.wins ≤ p.trades := hperf p rfl
    dsimp only
    split_ifs with htr
    · have ht0 : (0 : ℚ) < (p.trades : ℚ) := by
        exact_mod_cast Nat.lt_of_lt_of_le (by norm_num) htr
      have hr0 : 0 ≤ (p.wins : ℚ) / (p.trades : ℚ) := by positivity
      have hr1 : (p.wins : ℚ) / (p.trades : ℚ) ≤ 1 := by
        rw [div_le_one ht0]
        exact_mod_cast hw
      constructor <;> nlinarith
    · exact ⟨hb0, hb1⟩

/-- The psychology-risk raw factor lies in [0,1]. -/
theorem calculate_psychology_penalty_bounds (s : Signals) (now : ℕ) :
    0 ≤ calculate_psychology_penalty s now ∧ calculate_psychology_penalty s now ≤ 1 := by
  simp only [calculate_psychology_penalty]
  have hsum : 0 ≤ (((analyze_setup s none now).traps_detected).map trap_penalty).sum := by
    apply List.sum_nonneg
    intro x hx
    obtain ⟨t, _, rfl⟩ := List.mem_map.mp hx
    exact trap_penalty_nonneg t
  split_ifs <;> exact ⟨le_min (by norm_num) (by linarith), min_le_left _ _⟩

/-- Rounding a value clamped to [0,100] stays in [0,100]. -/
theorem pyRound_clamp_bounds (x : ℚ) :
    0 ≤ pyRound 1 (max 0 (min 100 x)) ∧ pyRound 1 (max 0 (min 100 x)) ≤ 100 := by
  have h1 : (0 : ℚ) ≤ max 0 (min 100 x) := le_max_left _ _
  have h2 : max 0 (min 100 x) ≤ 100 := max_le (by norm_num) (min_le_left _ _)
  have h3 := @pyRound_bounds 0 100 (max 0 (min 100 x)) 1
    (by exact_mod_cast h1) (by exact_mod_cast h2)
  exact ⟨by exact_mod_cast h3.1, by exact_mod_cast h3.2⟩

/-- Claim C3: for every signals, volatility, trend and session input (with a
nonnegative, at-most-1 bias confidence and a well-formed session history row),
the final score lies in [0,100] and each of the six raw factor scores lies in
[0,1] before weighting. -/
theorem C3_score_bounds (s : Signals) (vol : Option VolMetrics)
    (trend : Option TrendMetrics) (session : Option Session) (perf : Option SessionPerf)
    (hour now : ℕ)
    (hconf0 : 0 ≤ s.overall_bias.confidence) (hconf1 : s.overall_bias.confidence ≤ 1)
    (hperf : ∀ p ∈ perf, p.wins ≤ p.trades) :
    (0 ≤ (calculate_score s vol trend session perf hour now).final_score
      ∧ (calculate_score s vol trend session perf hour now).final_score ≤ 100)
    ∧ (0 ≤ calculate_trend_score s trend ∧ calculate_trend_score s trend ≤ 1)
    ∧ (0 ≤ calculate_momentum_score s ∧ calculate_momentum_score s ≤ 1)
    ∧ (0 ≤ calculate_volatility_score s vol ∧ calculate_volatility_score s vol ≤ 1)
    ∧ (0 ≤ calculate_candle_score s ∧ calculate_candle_score s ≤ 1)
    ∧ (0 ≤ calculate_session_score session hour perf
        ∧ calculate_session_score session hour perf ≤ 1)
    ∧ (0 ≤ calculate_psychology_penalty s now
        ∧ calculate_psychology_penalty s now ≤ 1) := by
  have _ := hconf1
  refine ⟨?_, calculate_trend_score_bounds s trend,
    calculate_momentum_score_bounds s hconf0,
    calculate_volatility_score_bounds s vol,
    calculate_candle_score_bounds s,
    calculate_session_score_bounds session hour perf hperf,
    calculate_psychology_penalty_bounds s now⟩
  simp only [calculate_score]
  exact pyRound_clamp_bounds _

/-- Witness for C3 at a concrete neutral input. -/
theorem C3_score_bounds_witness :
    (0 ≤ sigNeutral.overall_bias.confidence ∧ sigNeutral.overall_bias.confidence ≤ 1)
    ∧ (0 ≤ (calculate_score sigNeutral none none (some Session.LONDON) none 0 0).final_score
      ∧ (calculate_score sigNeutral none none (some Session.LONDON) none 0 0).final_score
        ≤ 100)
    ∧ (0 ≤ calculate_trend_score sigNeutral none ∧ calculate_trend_score sigNeutral none ≤ 1)
    ∧ (0 ≤ calculate_momentum_score sigNeutral ∧ calculate_momentum_score sigNeutral ≤ 1)
    ∧ (0 ≤ calculate_volatility_score sigNeutral none
        ∧ calculate_volatility_score sigNeutral none ≤ 1)
    ∧ (0 ≤ calculate_candle_score sigNeutral ∧ calculate_candle_score sigNeutral ≤ 1)
    ∧ (0 ≤ calculate_session_score (some Session.LONDON) 0 none
        ∧ calculate_session_score (some Session.LONDON) 0 none ≤ 1)
    ∧ (0 ≤ calculate_psychology_penalty sigNeutral 0
        ∧ calculate_psychology_penalty sigNeutral 0 ≤ 1) := by
  have hc0 : (0 : ℚ) ≤ sigNeutral.overall_bias.confidence := by
    norm_num [sigNeutral, emptyDictSignals]
  have hc1 : sigNeutral.overall_bias.confidence ≤ 1 := by
    norm_num [sigNeutral, emptyDictSignals]
  have h := C3_score_bounds sigNeutral none none (some Session.LONDON) none 0 0
    hc0 hc1 (by simp)
  exact ⟨⟨hc0, hc1⟩, h.1, h.2.1, h.2.2.1, h.2.2.2.1, h.2.2.2.2.1, h.2.2.2.2.2.1,
    h.2.2.2.2.2.2⟩

/-- The decision depends on a trap assessment only through its overall risk
score. -/
theorem determine_signal_risk_only (score : ℚ) (ai : Prediction)
    (bias : BiasDirection) (conf : ℚ) (vol : VolMetrics) (t1 t2 : TrapAssessment)
    (h : t1.overall_risk_score = t2.overall_risk_score) :
    determine_signal score ai t1 bias conf vol = determine_signal score ai t2 bias conf vol := by
  simp only [determine_signal]
  rw [h]

/-- Counterexample to claim C7: two runs of the analysis pipeline on the same
30-bar frame at different wall-clock instants are not byte-identical - the
score timestamp records the call time. -/
theorem C7_counterexample :
    analysis_pipeline sqrtZero df30 Session.LONDON none 0
      ≠ analysis_pipeline sqrtZero df30 Session.LONDON none 1
    ∧ (analysis_pipeline sqrtZero df30 Session.LONDON none 0).score.timestamp = 0
    ∧ (analysis_pipeline sqrtZero df30 Session.LONDON none 1).score.timestamp = 1 := by
  refine ⟨fun h => ?_, rfl, rfl⟩
  have h2 := congrArg (fun r => r.score.timestamp) h
  simp only [] at h2
  exact absurd h2 (by decide)

/-- Claim C7 (amended): for a fixed frame, session and trade history, every
component of the pipeline output except the wall-clock timestamp fields
(score timestamp, trap analysis time) is identical across runs: the analysis
is a pure function of its inputs. -/
theorem C7_determinism_modulo_timestamps (sqrtQ : ℚ → ℚ) (df : DataFrame)
    (session : Session) (perf : Option SessionPerf) (n1 n2 : ℕ) :
    (analysis_pipeline sqrtQ df session perf n1).analyzed
        = (analysis_pipeline sqrtQ df session perf n2).analyzed
    ∧ (analysis_pipeline sqrtQ df session perf n1).signals
        = (analysis_pipeline sqrtQ df session perf n2).signals
    ∧ (analysis_pipeline sqrtQ df session perf n1).volatility
        = (analysis_pipeline sqrtQ df session perf n2).volatility
    ∧ (analysis_pipeline sqrtQ df session perf n1).trend
        = (analysis_pipeline sqrtQ df session perf n2).trend
    ∧ (analysis_pipeline sqrtQ df session perf n1).score.final_score
        = (analysis_pipeline sqrtQ df session perf n2).score.final_score
    ∧ (analysis_pipeline sqrtQ df session perf n1).score.grade
        = (analysis_pipeline sqrtQ df session perf n2).score.grade
    ∧ (analysis_pipeline sqrtQ df session perf n1).score.breakdown
        = (analysis_pipeline sqrtQ df session perf n2).score.breakdown
    ∧ (analysis_pipeline sqrtQ df session perf n1).trap.traps_detected
        = (analysis_pipeline sqrtQ df session perf n2).trap.traps_detected
    ∧ (analysis_pipeline sqrtQ df session perf n1).trap.risk_factors
        = (analysis_pipeline sqrtQ df session perf n2).trap.risk_factors
    ∧ (analysis_pipeline sqrtQ df session perf n1).trap.overall_risk_score
        = (analysis_pipeline sqrtQ df session perf n2).trap.overall_risk_score
    ∧ (analysis_pipeline sqrtQ df session perf n1).trap.assessment
        = (analysis_pipeline sqrtQ df session perf n2).trap.assessment
    ∧ (analysis_pipeline sqrtQ df session perf n1).ai
        = (analysis_pipeline sqrtQ df session perf n2).ai
    ∧ (analysis_pipeline sqrtQ df session perf n1).decision
        = (analysis_pipeline sqrtQ df session perf n2).decision := by
  refine ⟨rfl, rfl, rfl, rfl, rfl, rfl, rfl, rfl, rfl, rfl, rfl, rfl, ?_⟩
  unfold analysis_pipeline
  dsimp only
  exact determine_signal_risk_only _ _ _ _ _ _ _ rfl

/-- Claim C8: below 30 bars the indicator computation returns the frame
unchanged, the generated signal is NO_DATA, and the current-signals read of
the unchanged frame is the fully neutral structure. -/
theorem C8_insufficient_data (sqrtQ : ℚ → ℚ) (df : DataFrame) (session : Session)
    (perf : Option SessionPerf) (now : ℕ)
    (hlen : df.candles.length < 30) (hraw : df.ind = none) :
    calculate_all_indicators sqrtQ df = df
    ∧ (generate_signal sqrtQ df session perf now).action = Action.NO_DATA
    ∧ (∀ last, df.candles.getLast? = some last →
        get_current_signals (calculate_all_indicators sqrtQ df)
          = some (neutralSignals last)) := by
  have hcalc : calculate_all_indicators sqrtQ df = df := by
    unfold calculate_all_indicators
    exact if_pos hlen
  refine ⟨hcalc, ?_, ?_⟩
  · unfold generate_signal
    rw [if_pos (Or.inr hlen)]
    rfl
  · intro last hlast
    rw [hcalc]
    unfold get_current_signals
    rw [hlast, hraw]
    simp only [Option.none_bind]
    simp [rowGet, neutralSignals, calculate_signal_strength, calculate_ema_strength,
      calculate_macd_strength, calculate_overall_bias, List.countP, List.countP.go]
    norm_num [pyRound, roundHalfEven, min_def]

/-- Witness for C8 at a concrete raw 10-bar frame. -/
theorem C8_insufficient_data_witness :
    (df10.candles.length < 30 ∧ df10.ind = none)
    ∧ (calculate_all_indicators sqrtZero df10 = df10
      ∧ (generate_signal sqrtZero df10 Session.LONDON none 0).action = Action.NO_DATA
      ∧ (∀ last, df10.candles.getLast? = some last →
          get_current_signals (calculate_all_indicators sqrtZero df10)
            = some (neutralSignals last))) :=
  ⟨⟨by decide, rfl⟩,
   C8_insufficient_data sqrtZero df10 Session.LONDON none 0 (by decide) rfl⟩

end Trader
